import Mathlib

/-
Verification of the `docx_ingest` tool: a command-line program that extracts
the paragraph texts of a DOCX document, drops blank paragraphs, joins the
rest with newlines, wraps the result together with a constant system prompt
into a two-field JSON object, and writes the serialized JSON either to a
destination file or to standard output.

The development shallowly embeds the program's functions:
  * `read_docx_text`  — opening a document and joining its non-blank paragraphs;
  * `build_payload`   — the two-entry mapping (modelled as an association list
                        to capture insertion order of the Python dict);
  * `json_dumps`      — `json.dumps(payload, ensure_ascii=False, indent=2)`
                        restricted to flat string-to-string mappings, following
                        the stdlib encoder (escape table, indent layout);
  * `json_loads_payload` — a JSON reader for two-member objects of strings,
                        following the stdlib scanner's string unescaping,
                        used to state the round-trip properties;
  * `mainRun`         — the CLI driver, with the filesystem and the possible
                        failure of the destination write supplied as an
                        explicit environment.
-/

namespace DocxIngest

/-- Whitespace predicate of Python's `str.strip()` / `str.isspace()`:
ASCII whitespace and separator control characters together with the Unicode
space separators recognized by CPython. -/
def pyIsSpace (c : Char) : Bool :=
  (('\x09' ≤ c && c ≤ '\x0d') || c = ' ') ||
  (('\x1c' ≤ c && c ≤ '\x1f') || c = '\u0085' || c = '\u00a0') ||
  (c = '\u1680' || ('\u2000' ≤ c && c ≤ '\u200a')) ||
  (c = '\u2028' || c = '\u2029' || c = '\u202f' || c = '\u205f' || c = '\u3000')

/-- Character-list form of Python's `str.strip()` with no argument: remove
leading and trailing whitespace. -/
def stripChars (cs : List Char) : List Char :=
  ((cs.dropWhile pyIsSpace).reverse.dropWhile pyIsSpace).reverse

/-- Python's `line.strip()` on strings. -/
def pyStrip (s : String) : String :=
  String.mk (stripChars s.data)

/-- Model of a python-docx paragraph: only its `text` attribute is used. -/
structure Paragraph where
  text : String
deriving Repr, DecidableEq

/-- Model of a python-docx `Document`: the ordered body paragraphs. -/
structure Doc where
  paragraphs : List Paragraph
deriving Repr, DecidableEq

/-- Errors raised by `Document(path)`: the file is missing, unreadable, or not
a valid DOCX package. The tool does not catch any of them. -/
inductive DocxError where
  | openFailed
deriving Repr, DecidableEq

/-- Filesystem oracle: what `Document(path)` yields at each path, `none` when
it raises (missing file or invalid package). -/
def DocxFs : Type := String → Option Doc

/-- Embedding of `read_docx_text` (src/docx_ingest.py lines 166-169):
opens the document, lists the paragraph texts, keeps those whose `strip()` is
truthy (non-empty), and joins them with a single newline. -/
def read_docx_text (fs : DocxFs) (path : String) : Except DocxError String :=
  match fs path with
  | none => Except.error DocxError.openFailed
  | some document =>
    let paragraphs := document.paragraphs.map Paragraph.text
    Except.ok (String.intercalate ("\n")
      (paragraphs.filter (fun line => !(stripChars line.data).isEmpty)))

/-- Embedding of the constant `SYSTEM_PROMPT` (src/docx_ingest.py lines 13-163). -/
def SYSTEM_PROMPT : String := "SYSTEM PROMPT — AUDITOR PH INMOBILIARIO (DECIMALES CONTROLADOS + VALIDACIÓN)

You are a real-estate technical audit engine specialized in Argentine Property Horizontal deeds and Special Horizontal Developments.

The user works on Windows with regional settings:

• Human decimal separator: ,
• Thousands separator: .
• List separator: ;

⚠️ ALL technical outputs MUST be normalized to international numeric format:

Decimal separator → .
NO thousands separators EVER.

🎯 CORE MISSION

Receive deed text segments and extract ONLY the units belonging to the building or complex explicitly mentioned.

NEVER mix different buildings even if they appear in the same text.

📦 DATA FIELDS PER UNIT
building_name

Exact building or complex name

unit — strict normalization

Planta Baja letra A → PB A
Primer piso letra C → 1 C
Segundo piso letra D → 2 D
Tercer piso letra B → 3 B
Subsuelo cochera N → COCHERA N
Baulera número N → BAULERA N
Special PH lots → Z-468 etc exactly as deed

type (only one)

Vivienda | Cochera | Baulera | Local | Mixto

📐 SURFACE RULES (MANDATORY)
propia_total =

✔ own covered surface
✔ + ALL exclusive-use surfaces (balcony, patio, terrace, semicubierta exclusiva)

comunes_total =

✔ common covered
✔ + common semicubierta
✔ + common uncovered

❌ NEVER place exclusive-use surfaces into comunes

If no common surfaces exist:

comunes_total = 0

total_con_comunes
propia_total + comunes_total

📊 OUTPUT FORMAT (ALWAYS)
1️⃣ Human-readable audit table
2️⃣ Clean technical CSV (SQL-ready)

Exact header:

building_name,unit,type,propia_total,comunes_total,total_con_comunes


Rules:

• decimal = .
• no thousands separators
• full precision preserved

🔍 MANDATORY CALCULATION TRACE

Whenever surfaces exist, ALWAYS show:

propia_total = own covered + exclusive use
comunes_total = covered + semicubierta + uncovered
total_con_comunes = sum


With exact deed precision (up to 4 decimals or more if present)

🚨 AUTOMATIC VALIDATIONS

After extraction, ALWAYS perform:

✅ Consistency checks:

• If deed provides “TOTAL POR UNIDAD” → verify against calculated propia_total
• If mismatch > 0.0001 → trigger alert

⚠️ Alert format:
⚠️ ALERTA DE ESCRITURA:

Unidad: X  
Total declarado: Y  
Total calculado: Z  
Diferencia: Δ  

Posible error en escritura o superficie mal sumada.

🔎 Structural integrity checks:

• Negative surfaces → ERROR
• comunes_total includes exclusive surfaces → ERROR
• Missing mandatory fields → ERROR
• Duplicate unit IDs → WARNING

🚫 ABSOLUTE PROHIBITIONS

❌ Do not invent units
❌ Do not merge buildings
❌ Do not round
❌ Do not reinterpret surfaces
❌ Do not output comma decimals
❌ Do not skip calculation traces
❌ Do not summarize

🧾 ENGINE PERSONALITY

Behave as:

✔ forensic real estate auditor
✔ cadastral technical expert
✔ SQL-ready data processor

Accuracy > speed > verbosity.

Every number must be traceable.

If inconsistencies exist, report them clearly — never silently correct.

📌 DEFAULT MODE

Always operate in:

AUDIT MODE = ON
VALIDATION MODE = ON
ERROR DETECTION MODE = ON

Si querés, siguiente nivel (opcional pero brutalmente útil):

🔁 agregar export automático a MySQL UPDATE
📈 control por porcentajes de dominio
🧮 detección de escrituras históricamente mal confeccionadas
"

/-- Embedding of `build_payload` (src/docx_ingest.py lines 172-176).  The
Python `dict[str, str]` is modelled as an association list so that insertion
order (`system_prompt` first, `deed_text` second) is part of the value. -/
def build_payload (fs : DocxFs) (docx_path : String) : Except DocxError (List (String × String)) :=
  match read_docx_text fs docx_path with
  | Except.error e => Except.error e
  | Except.ok text =>
    Except.ok [("system_prompt", SYSTEM_PROMPT), ("deed_text", text)]

/-- Lowercase hexadecimal digit, as used by the stdlib encoder's `\uXXXX`
escapes (CPython formats them with `%04x`). -/
def hexDigitChar (n : Nat) : Char :=
  if n < 10 then Char.ofNat (48 + n) else Char.ofNat (87 + n)

/-- Escape of one character by `json.dumps` with `ensure_ascii=False`: the
stdlib replaces exactly `"` , `\` and the control characters below U+0020
(short escapes for the five named ones, `\u00XX` otherwise) and leaves every
other character — in particular all non-ASCII — literal. -/
def escChar (c : Char) : List Char :=
  if c = '"' then ['\\', '"']
  else if c = '\\' then ['\\', '\\']
  else if c = '\n' then ['\\', 'n']
  else if c = '\r' then ['\\', 'r']
  else if c = '\t' then ['\\', 't']
  else if c = '\x08' then ['\\', 'b']
  else if c = '\x0c' then ['\\', 'f']
  else if c.toNat < 32 then
    ['\\', 'u', '0', '0', hexDigitChar (c.toNat / 16), hexDigitChar (c.toNat % 16)]
  else [c]

/-- Escaped body of a JSON string literal. -/
def escBody (cs : List Char) : List Char :=
  cs.flatMap escChar

/-- JSON string literal for `s`, as produced by the stdlib encoder with
`ensure_ascii=False`. -/
def encodeJsonString (s : String) : String :=
  String.mk ('"' :: (escBody s.data ++ ['"']))

/-- Embedding of `json.dumps(payload, ensure_ascii=False, indent=2)` for a
flat string-to-string mapping, following the stdlib's `indent` layout: items
on their own lines indented by two spaces, item separator `,`, key separator
`: `, and `{}` for an empty mapping. -/
def json_dumps (items : List (String × String)) : String :=
  if items.isEmpty then "\x7b\x7d"
  else
    "\x7b\n  " ++
      String.intercalate (",\n  ")
        (items.map (fun kv => encodeJsonString kv.1 ++ (": ") ++ encodeJsonString kv.2)) ++
      "\n\x7d"

/-- JSON whitespace (the four characters the grammar allows between tokens). -/
def jsonWs (c : Char) : Bool :=
  c = ' ' || c = '\t' || c = '\n' || c = '\r'

/-- Skip leading JSON whitespace. -/
def skipWs (l : List Char) : List Char :=
  l.dropWhile jsonWs

/-- Consume one expected character. -/
def expectChar (c : Char) (l : List Char) : Option (List Char) :=
  match l with
  | [] => none
  | x :: rest => if x = c then some rest else none

/-- Value of a hexadecimal digit, either case (as accepted in `\uXXXX`). -/
def hexVal (c : Char) : Option Nat :=
  if '0' ≤ c && c ≤ '9' then some (c.toNat - 48)
  else if 'a' ≤ c && c ≤ 'f' then some (c.toNat - 87)
  else if 'A' ≤ c && c ≤ 'F' then some (c.toNat - 55)
  else none

/-- Short backslash escapes of the JSON grammar. -/
def unescapeShort (e : Char) : Option Char :=
  if e = '"' then some '"'
  else if e = '\\' then some '\\'
  else if e = '/' then some '/'
  else if e = 'b' then some '\x08'
  else if e = 'f' then some '\x0c'
  else if e = 'n' then some '\n'
  else if e = 'r' then some '\r'
  else if e = 't' then some '\t'
  else none

/-- Body of a JSON string literal after the opening quote, following the
stdlib scanner in strict mode: a closing quote ends the literal, a backslash
introduces a short escape or `\uXXXX`, raw control characters are rejected,
any other character stands for itself.  Returns the decoded characters and
the remaining input. -/
def parseStringBody : List Char → Option (List Char × List Char)
  | [] => none
  | c :: rest =>
    if c = '"' then some ([], rest)
    else if c = '\\' then
      match rest with
      | [] => none
      | e :: rest2 =>
        if e = 'u' then
          match rest2 with
          | h1 :: h2 :: h3 :: h4 :: rest3 =>
            match hexVal h1, hexVal h2, hexVal h3, hexVal h4 with
            | some a, some b, some c2, some d =>
              match parseStringBody rest3 with
              | some (cs, rem) => some (Char.ofNat (((a * 16 + b) * 16 + c2) * 16 + d) :: cs, rem)
              | none => none
            | _, _, _, _ => none
          | _ => none
        else
          match unescapeShort e with
          | some u =>
            match parseStringBody rest2 with
            | some (cs, rem) => some (u :: cs, rem)
            | none => none
          | none => none
    else if c.toNat < 32 then none
    else
      match parseStringBody rest with
      | some (cs, rem) => some (c :: cs, rem)
      | none => none

/-- A complete JSON string literal, with leading whitespace allowed. -/
def parseJsonString (l : List Char) : Option (String × List Char) :=
  match expectChar '"' (skipWs l) with
  | none => none
  | some r =>
    match parseStringBody r with
    | none => none
    | some (cs, rem) => some (String.mk cs, rem)

/-- Model of `json.loads` on the texts this tool emits: a JSON object with
exactly two string members.  Yields the members in source order, mirroring
dict insertion order. -/
def json_loads_payload (s : String) : Option (List (String × String)) := do
  let r0 ← expectChar '{' (skipWs s.data)
  let p1 ← parseJsonString r0
  let r2 ← expectChar ':' (skipWs p1.2)
  let q1 ← parseJsonString r2
  let r4 ← expectChar ',' (skipWs q1.2)
  let p2 ← parseJsonString r4
  let r6 ← expectChar ':' (skipWs p2.2)
  let q2 ← parseJsonString r6
  let r8 ← expectChar '}' (skipWs q2.2)
  if (skipWs r8).isEmpty then some [(p1.1, q1.1), (p2.1, q2.1)]
  else none

/-- Parsed command line: the required document path and the optional `-o`
destination. -/
structure Args where
  docx_path : String
  output : Option String
deriving Repr, DecidableEq

/-- Environment of one invocation: the filesystem oracle for `Document(path)`
and the behaviour of the destination write — `none` when `write_text`
completes, `some n` when it raises after writing `n` characters. -/
structure Env where
  fs : DocxFs
  writeFail : Option Nat

/-- Observable outcome of one invocation: the process exit code, what was
printed to standard output, and the destination file's state — `none` when
the destination was never written (any pre-existing content is untouched). -/
structure RunResult where
  exitCode : Nat
  stdoutData : Option String
  fileState : Option (String × String)
deriving Repr, DecidableEq

/-- Embedding of `main` (src/docx_ingest.py lines 193-200): build the
payload (an uncaught `DocxError` terminates the process with a non-zero exit
code before any write), serialize it, then either write the text to the
destination (a failing write also exits non-zero, possibly leaving a
truncated file) or print it — `print` appends one newline. -/
def mainRun (env : Env) (args : Args) : RunResult :=
  match build_payload env.fs args.docx_path with
  | Except.error _ =>
    { exitCode := 1, stdoutData := none, fileState := none }
  | Except.ok payload =>
    let out := json_dumps payload
    match args.output with
    | some outPath =>
      match env.writeFail with
      | none => { exitCode := 0, stdoutData := none, fileState := some (outPath, out) }
      | some n =>
        { exitCode := 1, stdoutData := none,
          fileState := some (outPath, String.mk (out.data.take n)) }
    | none =>
      { exitCode := 0, stdoutData := some (out ++ "\n"), fileState := none }

/-- Example document used by the witnesses: two content paragraphs around a
blank and a whitespace-only one. -/
def exampleDoc : Doc :=
  { paragraphs := [⟨"Building ALPHA"⟩, ⟨""⟩, ⟨"Unit PB A"⟩, ⟨"   "⟩] }

/-- Example filesystem: exactly one readable document. -/
def exampleFs : DocxFs :=
  fun p => if p = "deed.docx" then some exampleDoc else none

/- Helper lemmas about `String.intercalate` (Python's `str.join`). -/

theorem intercalate_go_append_left (s x y : String) (l : List String) :
    String.intercalate.go (x ++ y) s l = x ++ String.intercalate.go y s l := by
  induction l generalizing y with
  | nil => rfl
  | cons b bs ih =>
    show String.intercalate.go (x ++ y ++ s ++ b) s bs =
      x ++ String.intercalate.go (y ++ s ++ b) s bs
    rw [String.append_assoc x y s, String.append_assoc x (y ++ s) b]
    exact ih ((y ++ s) ++ b)

theorem intercalate_cons_cons (s a b : String) (l : List String) :
    String.intercalate s (a :: b :: l) = a ++ s ++ String.intercalate s (b :: l) := by
  show String.intercalate.go (a ++ s ++ b) s l = (a ++ s) ++ String.intercalate.go b s l
  exact intercalate_go_append_left s (a ++ s) b l

theorem intercalate_singleton (s a : String) : String.intercalate s [a] = a := rfl

/- Helper lemmas about Python's `strip` and blank-line detection. -/

theorem stripChars_eq_nil_iff (cs : List Char) :
    stripChars cs = [] ↔ ∀ c ∈ cs, pyIsSpace c = true := by
  unfold stripChars
  rw [List.reverse_eq_nil_iff, List.dropWhile_eq_nil_iff]
  constructor
  · intro h c hc
    have hc2 : c ∈ cs.takeWhile pyIsSpace ++ cs.dropWhile pyIsSpace := by
      rw [List.takeWhile_append_dropWhile]
      exact hc
    rcases List.mem_append.mp hc2 with h1 | h2
    · exact List.mem_takeWhile_imp h1
    · exact h c (List.mem_reverse.mpr h2)
  · intro h c hc
    exact h c ((List.dropWhile_sublist pyIsSpace).mem (List.mem_reverse.mp hc))

theorem keep_iff (l : String) :
    (!(stripChars l.data).isEmpty) = true ↔ ∃ c ∈ l.data, pyIsSpace c = false := by
  simp [List.isEmpty_iff, stripChars_eq_nil_iff]

theorem keep_fun_eq :
    (fun line : String => !(stripChars line.data).isEmpty) =
      (fun line : String => line.data.any (fun c => !pyIsSpace c)) := by
  funext l
  rw [Bool.eq_iff_iff, keep_iff l]
  simp [List.any_eq_true]

theorem pyStrip_ne_empty_iff (l : String) :
    pyStrip l ≠ ("") ↔ (!(stripChars l.data).isEmpty) = true := by
  have hmk : (String.mk (stripChars l.data)).data = stripChars l.data := rfl
  rw [pyStrip, Ne, String.ext_iff, hmk]
  simp [List.isEmpty_iff]

theorem intercalate_factor (s l : String) (A B : List String) :
    ∃ a b : String, String.intercalate s (A ++ l :: B) = a ++ l ++ b := by
  induction A with
  | nil =>
    cases B with
    | nil =>
      refine ⟨"", "", ?_⟩
      rw [show ([] : List String) ++ [l] = [l] from rfl, intercalate_singleton,
        String.empty_append, String.append_empty]
    | cons b bs =>
      refine ⟨"", s ++ String.intercalate s (b :: bs), ?_⟩
      rw [show ([] : List String) ++ l :: b :: bs = l :: b :: bs from rfl,
        intercalate_cons_cons, String.empty_append, String.append_assoc]
  | cons x xs ih =>
    rcases ih with ⟨a, b, h⟩
    cases hx : xs ++ l :: B with
    | nil => exact absurd hx (by simp)
    | cons y ys =>
      refine ⟨x ++ s ++ a, b, ?_⟩
      have hstep : String.intercalate s ((x :: xs) ++ l :: B) =
          x ++ s ++ String.intercalate s (y :: ys) := by
        show String.intercalate s (x :: (xs ++ l :: B)) = _
        rw [hx]
        exact intercalate_cons_cons s x y ys
      rw [hx] at h
      rw [hstep, h]
      simp [String.append_assoc]

/-- C1: for every valid document whose body paragraphs are all non-blank, in
order, text extraction returns exactly their newline-join, preserving order
and neither splitting nor merging any paragraph. -/
theorem extraction_joins_all_paragraphs (fs : DocxFs) (path : String) (document : Doc)
    (hfs : fs path = some document)
    (hnb : ∀ p ∈ document.paragraphs, pyStrip p.text ≠ ("")) :
    read_docx_text fs path =
      Except.ok (String.intercalate ("\n") (document.paragraphs.map Paragraph.text)) := by
  simp only [read_docx_text, hfs]
  have hkeep : ∀ line ∈ document.paragraphs.map Paragraph.text,
      (!(stripChars line.data).isEmpty) = true := by
    intro line hline
    rcases List.mem_map.mp hline with ⟨p, hp, rfl⟩
    exact (pyStrip_ne_empty_iff p.text).mp (hnb p hp)
  rw [List.filter_eq_self.mpr hkeep]

/-- C1 witness: the theorem applied to a concrete two-paragraph document. -/
theorem extraction_joins_all_paragraphs_witness :
    read_docx_text (fun _ => some { paragraphs := [⟨"a"⟩, ⟨" b "⟩] }) ("x.docx") =
      Except.ok (String.intercalate ("\n") ["a", " b "]) :=
  extraction_joins_all_paragraphs _ _ { paragraphs := [⟨"a"⟩, ⟨" b "⟩] } rfl (by decide)

/-- C2: extraction retains a paragraph if and only if it contains at least one
non-whitespace character; the result is the newline-join of exactly the
retained paragraphs, in order, so dropped paragraphs contribute nothing. -/
theorem extraction_keeps_iff_nonwhitespace (fs : DocxFs) (path : String) (document : Doc)
    (hfs : fs path = some document) :
    read_docx_text fs path = Except.ok (String.intercalate ("\n")
      ((document.paragraphs.map Paragraph.text).filter
        (fun line => line.data.any (fun c => !pyIsSpace c)))) := by
  simp only [read_docx_text, hfs]
  rw [keep_fun_eq]

/-- C2 witness: blank and whitespace-only paragraphs interspersed with content
are dropped with no extra newlines. -/
theorem extraction_keeps_iff_nonwhitespace_witness :
    read_docx_text exampleFs ("deed.docx") = Except.ok (String.intercalate ("\n")
      ((exampleDoc.paragraphs.map Paragraph.text).filter
        (fun line => line.data.any (fun c => !pyIsSpace c)))) :=
  extraction_keeps_iff_nonwhitespace exampleFs ("deed.docx") exampleDoc rfl

/-- C9: a document with no paragraphs, or only blank or whitespace-only ones,
extracts to the empty string, and the payload's `deed_text` field is `""`. -/
theorem extraction_empty_document (fs : DocxFs) (path : String) (document : Doc)
    (hfs : fs path = some document)
    (hall : ∀ p ∈ document.paragraphs, pyStrip p.text = ("")) :
    read_docx_text fs path = Except.ok ("") ∧
      build_payload fs path =
        Except.ok [("system_prompt", SYSTEM_PROMPT), ("deed_text", "")] := by
  have hread : read_docx_text fs path = Except.ok ("") := by
    simp only [read_docx_text, hfs]
    have hfil : (document.paragraphs.map Paragraph.text).filter
        (fun line => !(stripChars line.data).isEmpty) = [] := by
      rw [List.filter_eq_nil_iff]
      intro a ha
      rcases List.mem_map.mp ha with ⟨p, hp, rfl⟩
      have h0 : stripChars p.text.data = [] := by
        have h1 := hall p hp
        unfold pyStrip at h1
        rw [String.ext_iff] at h1
        exact h1
      simp [h0]
    rw [hfil]
    rfl
  refine ⟨hread, ?_⟩
  unfold build_payload
  rw [hread]

/-- C9 witness: a document whose two paragraphs are empty and whitespace-only. -/
theorem extraction_empty_document_witness :
    read_docx_text (fun _ => some { paragraphs := [⟨""⟩, ⟨" \t "⟩] }) ("x.docx") =
        Except.ok ("") ∧
      build_payload (fun _ => some { paragraphs := [⟨""⟩, ⟨" \t "⟩] }) ("x.docx") =
        Except.ok [("system_prompt", SYSTEM_PROMPT), ("deed_text", "")] :=
  extraction_empty_document _ _ _ rfl (by decide)

/-- C10: every paragraph that survives the blank filter is reproduced verbatim
inside the extracted string — trimming is only the filter predicate, so its
leading and trailing whitespace is preserved. -/
theorem retained_paragraph_verbatim (fs : DocxFs) (path : String) (document : Doc)
    (xs ys : List String) (l : String)
    (hfs : fs path = some document)
    (hsplit : document.paragraphs.map Paragraph.text = xs ++ l :: ys)
    (hl : pyStrip l ≠ ("")) :
    ∃ a b : String, read_docx_text fs path = Except.ok (a ++ l ++ b) := by
  simp only [read_docx_text, hfs, hsplit]
  rw [List.filter_append]
  have hkl : (!(stripChars l.data).isEmpty) = true := (pyStrip_ne_empty_iff l).mp hl
  rw [List.filter_cons_of_pos (p := fun line : String => !(stripChars line.data).isEmpty) hkl]
  rcases intercalate_factor ("\n") l
      (xs.filter (fun line => !(stripChars line.data).isEmpty))
      (ys.filter (fun line => !(stripChars line.data).isEmpty)) with ⟨a, b, h⟩
  exact ⟨a, b, by rw [h]⟩

/-- C10 witness: the paragraph `"  x  "` is kept with its surrounding
whitespace intact. -/
theorem retained_paragraph_verbatim_witness :
    ∃ a b : String,
      read_docx_text (fun _ => some { paragraphs := [⟨"a"⟩, ⟨"  x  "⟩, ⟨""⟩] }) ("d.docx") =
        Except.ok (a ++ ("  x  ") ++ b) :=
  retained_paragraph_verbatim _ ("d.docx") _ ["a"] [""] ("  x  ") rfl rfl (by decide)

theorem build_payload_ok_shape (fs : DocxFs) (docx_path : String)
    (payload : List (String × String))
    (h : build_payload fs docx_path = Except.ok payload) :
    ∃ t : String, payload = [("system_prompt", SYSTEM_PROMPT), ("deed_text", t)] := by
  unfold build_payload at h
  cases hr : read_docx_text fs docx_path with
  | error e =>
    rw [hr] at h
    exact absurd h (by simp)
  | ok text =>
    rw [hr] at h
    injection h with h2
    subst h2
    exact ⟨text, rfl⟩

/-- C3: the payload built from any document is a mapping with exactly two
string-valued fields, in insertion order `system_prompt` then `deed_text`,
and no other field is ever present. -/
theorem payload_exactly_two_fields (fs : DocxFs) (docx_path : String)
    (payload : List (String × String))
    (h : build_payload fs docx_path = Except.ok payload) :
    payload.length = 2 ∧
      payload.map Prod.fst = ["system_prompt", "deed_text"] ∧
      ∃ t : String, payload = [("system_prompt", SYSTEM_PROMPT), ("deed_text", t)] := by
  obtain ⟨t, rfl⟩ := build_payload_ok_shape fs docx_path payload h
  exact ⟨rfl, rfl, t, rfl⟩

/-- C3 witness: the payload built from the example document. -/
theorem payload_exactly_two_fields_witness :
    ([(("system_prompt" : String), SYSTEM_PROMPT),
        ("deed_text", "Building ALPHA\nUnit PB A")].length = 2) ∧
      [(("system_prompt" : String), SYSTEM_PROMPT),
        ("deed_text", "Building ALPHA\nUnit PB A")].map Prod.fst =
        ["system_prompt", "deed_text"] ∧
      ∃ t : String,
        [(("system_prompt" : String), SYSTEM_PROMPT),
          ("deed_text", "Building ALPHA\nUnit PB A")] =
          [("system_prompt", SYSTEM_PROMPT), ("deed_text", t)] :=
  payload_exactly_two_fields exampleFs ("deed.docx") _ rfl

/-- C7: invoking the tool on a path where no document can be opened exits
with a non-zero code, and the destination file is neither created nor
overwritten — no write happens before the document is parsed. -/
theorem missing_input_no_output (env : Env) (args : Args)
    (h : env.fs args.docx_path = none) :
    (mainRun env args).exitCode ≠ 0 ∧ (mainRun env args).fileState = none ∧
      (mainRun env args).stdoutData = none := by
  have hb : build_payload env.fs args.docx_path = Except.error DocxError.openFailed := by
    simp only [build_payload, read_docx_text, h]
  simp [mainRun, hb]

/-- C7 witness: the example filesystem holds no document at `missing.docx`. -/
theorem missing_input_no_output_witness :
    (mainRun ⟨exampleFs, none⟩ ⟨"missing.docx", some ("out.json")⟩).exitCode ≠ 0 ∧
      (mainRun ⟨exampleFs, none⟩ ⟨"missing.docx", some ("out.json")⟩).fileState = none ∧
      (mainRun ⟨exampleFs, none⟩ ⟨"missing.docx", some ("out.json")⟩).stdoutData = none :=
  missing_input_no_output ⟨exampleFs, none⟩ ⟨"missing.docx", some ("out.json")⟩ rfl

/-- C8: when a destination path is given, a run that reports success leaves
the full serialized text at the destination — there is no execution that
exits with code zero while the destination holds partial content. -/
theorem write_full_or_error (env : Env) (args : Args) (outPath : String)
    (hout : args.output = some outPath)
    (hexit : (mainRun env args).exitCode = 0) :
    ∃ payload, build_payload env.fs args.docx_path = Except.ok payload ∧
      (mainRun env args).fileState = some (outPath, json_dumps payload) := by
  cases hb : build_payload env.fs args.docx_path with
  | error e =>
    simp only [mainRun, hb] at hexit
    exact absurd hexit (by decide)
  | ok payload =>
    cases hw : env.writeFail with
    | none =>
      refine ⟨payload, rfl, ?_⟩
      simp only [mainRun, hb, hout, hw]
    | some n =>
      simp only [mainRun, hb, hout, hw] at hexit
      exact absurd hexit (by decide)

/-- C8 witness: a successful run on the example document writes the complete
serialized payload to `out.json`. -/
theorem write_full_or_error_witness :
    ∃ payload, build_payload exampleFs ("deed.docx") = Except.ok payload ∧
      (mainRun ⟨exampleFs, none⟩ ⟨"deed.docx", some ("out.json")⟩).fileState =
        some (("out.json"), json_dumps payload) :=
  write_full_or_error ⟨exampleFs, none⟩ ⟨"deed.docx", some ("out.json")⟩ ("out.json") rfl rfl

/- Helper lemmas about the JSON string escape and its inverse. -/

theorem hexVal_hexDigitChar : ∀ n < 16, hexVal (hexDigitChar n) = some n := by decide

theorem parseStringBody_backslash_short (e u : Char) (X cs rem : List Char)
    (he : e ≠ 'u') (hu : unescapeShort e = some u)
    (hX : parseStringBody X = some (cs, rem)) :
    parseStringBody ('\\' :: e :: X) = some (u :: cs, rem) := by
  rw [parseStringBody.eq_def]
  simp [he, hu, hX]

theorem parseStringBody_plain (c : Char) (X cs rem : List Char)
    (h1 : c ≠ '"') (h2 : c ≠ '\\') (h3 : ¬(c.toNat < 32))
    (hX : parseStringBody X = some (cs, rem)) :
    parseStringBody (c :: X) = some (c :: cs, rem) := by
  rw [parseStringBody.eq_def]
  simp [h1, h2, h3, hX]

theorem parseStringBody_unicode (n : Nat) (X cs rem : List Char)
    (hn : n < 32)
    (hX : parseStringBody X = some (cs, rem)) :
    parseStringBody
        ('\\' :: 'u' :: '0' :: '0' :: hexDigitChar (n / 16) :: hexDigitChar (n % 16) :: X) =
      some (Char.ofNat n :: cs, rem) := by
  have hhi : hexVal (hexDigitChar (n / 16)) = some (n / 16) :=
    hexVal_hexDigitChar (n / 16) (by omega)
  have hlo : hexVal (hexDigitChar (n % 16)) = some (n % 16) :=
    hexVal_hexDigitChar (n % 16) (by omega)
  have hzero : hexVal '0' = some 0 := rfl
  rw [parseStringBody.eq_def]
  simp [hzero, hhi, hlo, hX]
  exact congrArg Char.ofNat (by omega)

theorem parseStringBody_escBody (cs rest : List Char) :
    parseStringBody (escBody cs ++ '"' :: rest) = some (cs, rest) := by
  induction cs with
  | nil =>
    have h0 : escBody [] ++ '"' :: rest = '"' :: rest := by simp [escBody]
    rw [h0, parseStringBody.eq_def]
    simp
  | cons c cs ih =>
    have hesc : escBody (c :: cs) ++ '"' :: rest = escChar c ++ (escBody cs ++ '"' :: rest) := by
      simp [escBody]
    rw [hesc]
    by_cases h1 : c = '"'
    · subst h1
      exact parseStringBody_backslash_short '"' '"' _ cs rest (by decide) rfl ih
    · by_cases h2 : c = '\\'
      · subst h2
        exact parseStringBody_backslash_short '\\' '\\' _ cs rest (by decide) rfl ih
      · by_cases h3 : c = '\n'
        · subst h3
          exact parseStringBody_backslash_short 'n' '\n' _ cs rest (by decide) rfl ih
        · by_cases h4 : c = '\r'
          · subst h4
            exact parseStringBody_backslash_short 'r' '\r' _ cs rest (by decide) rfl ih
          · by_cases h5 : c = '\t'
            · subst h5
              exact parseStringBody_backslash_short 't' '\t' _ cs rest (by decide) rfl ih
            · by_cases h6 : c = '\x08'
              · subst h6
                exact parseStringBody_backslash_short 'b' '\x08' _ cs rest (by decide) rfl ih
              · by_cases h7 : c = '\x0c'
                · subst h7
                  exact parseStringBody_backslash_short 'f' '\x0c' _ cs rest (by decide) rfl ih
                · by_cases h8 : c.toNat < 32
                  · have hch : escChar c =
                        ['\\', 'u', '0', '0', hexDigitChar (c.toNat / 16),
                          hexDigitChar (c.toNat % 16)] := by
                      simp [escChar, h1, h2, h3, h4, h5, h6, h7, h8]
                    rw [hch]
                    have hu := parseStringBody_unicode c.toNat _ cs rest h8 ih
                    rw [Char.ofNat_toNat] at hu
                    exact hu
                  · have hch : escChar c = [c] := by
                      simp [escChar, h1, h2, h3, h4, h5, h6, h7, h8]
                    rw [hch]
                    exact parseStringBody_plain c _ cs rest h1 h2 h8 ih

/- Helper lemmas about the serialized form and the reader. -/

theorem intercalate_pair (s a b : String) : String.intercalate s [a, b] = a ++ s ++ b := rfl

theorem encodeJsonString_data (s : String) :
    (encodeJsonString s).data = '"' :: (escBody s.data ++ ['"']) := rfl

theorem jsonWs_lbrace : jsonWs '{' = false := rfl

theorem jsonWs_rbrace : jsonWs '}' = false := rfl

theorem jsonWs_newline : jsonWs '\n' = true := rfl

theorem jsonWs_space : jsonWs ' ' = true := rfl

theorem jsonWs_quote : jsonWs '"' = false := rfl

theorem jsonWs_colon : jsonWs ':' = false := rfl

theorem jsonWs_comma : jsonWs ',' = false := rfl

theorem skipWs_nil : skipWs [] = [] := rfl

theorem skipWs_cons_false (c : Char) (l : List Char) (h : jsonWs c = false) :
    skipWs (c :: l) = c :: l := by
  simp [skipWs, List.dropWhile_cons, h]

theorem skipWs_cons_true (c : Char) (l : List Char) (h : jsonWs c = true) :
    skipWs (c :: l) = skipWs l := by
  simp [skipWs, List.dropWhile_cons, h]

theorem expectChar_cons (c : Char) (l : List Char) : expectChar c (c :: l) = some l := by
  simp [expectChar]

theorem parseJsonString_at (l : List Char) (s : String) (rest : List Char)
    (h : skipWs l = '"' :: (escBody s.data ++ '"' :: rest)) :
    parseJsonString l = some (s, rest) := by
  unfold parseJsonString
  rw [h, expectChar_cons]
  simp [parseStringBody_escBody]

theorem loads_dumps_pair (k1 v1 k2 v2 : String) :
    json_loads_payload (json_dumps [(k1, v1), (k2, v2)]) = some [(k1, v1), (k2, v2)] := by
  have hdata : (json_dumps [(k1, v1), (k2, v2)]).data =
      '{' :: '\n' :: ' ' :: ' ' :: '"' ::
        (escBody k1.data ++ '"' :: ':' :: ' ' :: '"' ::
          (escBody v1.data ++ '"' :: ',' :: '\n' :: ' ' :: ' ' :: '"' ::
            (escBody k2.data ++ '"' :: ':' :: ' ' :: '"' ::
              (escBody v2.data ++ ['"', '\n', '}'])))) := by
    have d1 : ("\x7b\n  ").data = ['{', '\n', ' ', ' '] := rfl
    have d2 : (": ").data = [':', ' '] := rfl
    have d3 : (",\n  ").data = [',', '\n', ' ', ' '] := rfl
    have d4 : ("\n\x7d").data = ['\n', '}'] := rfl
    simp [json_dumps, intercalate_pair, String.data_append, encodeJsonString_data,
      d1, d2, d3, d4]
  have hk1 : parseJsonString
      ('\n' :: ' ' :: ' ' :: '"' ::
        (escBody k1.data ++ '"' :: ':' :: ' ' :: '"' ::
          (escBody v1.data ++ '"' :: ',' :: '\n' :: ' ' :: ' ' :: '"' ::
            (escBody k2.data ++ '"' :: ':' :: ' ' :: '"' ::
              (escBody v2.data ++ ['"', '\n', '}']))))) =
      some (k1, ':' :: ' ' :: '"' ::
        (escBody v1.data ++ '"' :: ',' :: '\n' :: ' ' :: ' ' :: '"' ::
          (escBody k2.data ++ '"' :: ':' :: ' ' :: '"' ::
            (escBody v2.data ++ ['"', '\n', '}'])))) :=
    parseJsonString_at _ _ _ rfl
  have hv1 : parseJsonString
      (' ' :: '"' ::
        (escBody v1.data ++ '"' :: ',' :: '\n' :: ' ' :: ' ' :: '"' ::
          (escBody k2.data ++ '"' :: ':' :: ' ' :: '"' ::
            (escBody v2.data ++ ['"', '\n', '}'])))) =
      some (v1, ',' :: '\n' :: ' ' :: ' ' :: '"' ::
        (escBody k2.data ++ '"' :: ':' :: ' ' :: '"' ::
          (escBody v2.data ++ ['"', '\n', '}']))) :=
    parseJsonString_at _ _ _ rfl
  have hk2 : parseJsonString
      ('\n' :: ' ' :: ' ' :: '"' ::
        (escBody k2.data ++ '"' :: ':' :: ' ' :: '"' ::
          (escBody v2.data ++ ['"', '\n', '}']))) =
      some (k2, ':' :: ' ' :: '"' :: (escBody v2.data ++ ['"', '\n', '}'])) :=
    parseJsonString_at _ _ _ rfl
  have hv2 : parseJsonString
      (' ' :: '"' :: (escBody v2.data ++ ['"', '\n', '}'])) =
      some (v2, ['\n', '}']) :=
    parseJsonString_at _ _ _ rfl
  unfold json_loads_payload
  rw [hdata]
  simp only [Option.bind_eq_bind, Option.some_bind, hk1, hv1, hk2, hv2,
    skipWs_cons_false, skipWs_cons_true, expectChar_cons, jsonWs_lbrace, jsonWs_rbrace,
    jsonWs_newline, jsonWs_space, jsonWs_quote, jsonWs_colon, jsonWs_comma, skipWs_nil,
    List.isEmpty_nil, if_true]

/-- C5: the JSON serialization of a payload pretty-prints over multiple lines
with two-space indentation, lists `system_prompt` before `deed_text`, and
leaves every non-ASCII character literal (never a numeric escape). -/
theorem json_serialization_format (sp dt : String) :
    json_dumps [("system_prompt", sp), ("deed_text", dt)] =
      ("\x7b\n  \"system_prompt\": ") ++ encodeJsonString sp ++
        (",\n  \"deed_text\": ") ++ encodeJsonString dt ++ ("\n\x7d") ∧
    ∀ c : Char, 128 ≤ c.toNat → escChar c = [c] := by
  constructor
  · rw [String.ext_iff]
    have d1 : ("\x7b\n  ").data = ['{', '\n', ' ', ' '] := rfl
    have d2 : (": ").data = [':', ' '] := rfl
    have d3 : (",\n  ").data = [',', '\n', ' ', ' '] := rfl
    have d4 : ("\n\x7d").data = ['\n', '}'] := rfl
    have dk1 : (encodeJsonString ("system_prompt")).data =
        ['"', 's', 'y', 's', 't', 'e', 'm', '_', 'p', 'r', 'o', 'm', 'p', 't', '"'] := rfl
    have dk2 : (encodeJsonString ("deed_text")).data =
        ['"', 'd', 'e', 'e', 'd', '_', 't', 'e', 'x', 't', '"'] := rfl
    have dp1 : ("\x7b\n  \"system_prompt\": ").data =
        ['{', '\n', ' ', ' ', '"', 's', 'y', 's', 't', 'e', 'm', '_', 'p', 'r', 'o',
          'm', 'p', 't', '"', ':', ' '] := rfl
    have dp2 : (",\n  \"deed_text\": ").data =
        [',', '\n', ' ', ' ', '"', 'd', 'e', 'e', 'd', '_', 't', 'e', 'x', 't', '"',
          ':', ' '] := rfl
    simp [json_dumps, intercalate_pair, String.data_append, d1, d2, d3, d4,
      dk1, dk2, dp1, dp2]
  · intro c hc
    have h1 : c ≠ '"' := by
      intro h
      subst h
      exact absurd hc (by decide)
    have h2 : c ≠ '\\' := by
      intro h
      subst h
      exact absurd hc (by decide)
    have h3 : c ≠ '\n' := by
      intro h
      subst h
      exact absurd hc (by decide)
    have h4 : c ≠ '\r' := by
      intro h
      subst h
      exact absurd hc (by decide)
    have h5 : c ≠ '\t' := by
      intro h
      subst h
      exact absurd hc (by decide)
    have h6 : c ≠ '\x08' := by
      intro h
      subst h
      exact absurd hc (by decide)
    have h7 : c ≠ '\x0c' := by
      intro h
      subst h
      exact absurd hc (by decide)
    have h8 : ¬(c.toNat < 32) := by omega
    simp [escChar, h1, h2, h3, h4, h5, h6, h7, h8]

/-- C5 witness: a concrete payload serialization, and the non-ASCII character
`é` escaping to itself. -/
theorem json_serialization_format_witness :
    json_dumps [("system_prompt", "a"), ("deed_text", "b")] =
        ("\x7b\n  \"system_prompt\": ") ++ encodeJsonString ("a") ++
          (",\n  \"deed_text\": ") ++ encodeJsonString ("b") ++ ("\n\x7d") ∧
      escChar 'é' = ['é'] :=
  ⟨(json_serialization_format ("a") ("b")).1,
    (json_serialization_format ("a") ("b")).2 'é' (by decide)⟩

/-- C4: the `system_prompt` field of every built payload, and of the mapping
recovered by parsing its serialized form, is exactly the compiled-in constant
— extraction and serialization never alter it. -/
theorem system_prompt_immutable (fs : DocxFs) (docx_path : String)
    (payload : List (String × String))
    (h : build_payload fs docx_path = Except.ok payload) :
    payload.lookup ("system_prompt") = some SYSTEM_PROMPT ∧
      ∃ parsed, json_loads_payload (json_dumps payload) = some parsed ∧
        parsed.lookup ("system_prompt") = some SYSTEM_PROMPT := by
  obtain ⟨t, rfl⟩ := build_payload_ok_shape fs docx_path payload h
  refine ⟨?_, [("system_prompt", SYSTEM_PROMPT), ("deed_text", t)],
    loads_dumps_pair _ _ _ _, ?_⟩
  · simp [List.lookup]
  · simp [List.lookup]

/-- C4 witness: the payload built from the example document. -/
theorem system_prompt_immutable_witness :
    ([(("system_prompt" : String), SYSTEM_PROMPT),
        ("deed_text", "Building ALPHA\nUnit PB A")].lookup ("system_prompt") =
      some SYSTEM_PROMPT) ∧
      ∃ parsed,
        json_loads_payload (json_dumps [("system_prompt", SYSTEM_PROMPT),
          ("deed_text", "Building ALPHA\nUnit PB A")]) = some parsed ∧
        parsed.lookup ("system_prompt") = some SYSTEM_PROMPT :=
  system_prompt_immutable exampleFs ("deed.docx") _ rfl

/-- C6: serializing any built payload to JSON and parsing it back yields the
original mapping, with both fields present and unchanged. -/
theorem payload_json_roundtrip (fs : DocxFs) (docx_path : String)
    (payload : List (String × String))
    (h : build_payload fs docx_path = Except.ok payload) :
    json_loads_payload (json_dumps payload) = some payload := by
  obtain ⟨t, rfl⟩ := build_payload_ok_shape fs docx_path payload h
  exact loads_dumps_pair _ _ _ _

/-- C6 witness: the round trip on the payload of the example document. -/
theorem payload_json_roundtrip_witness :
    json_loads_payload (json_dumps [("system_prompt", SYSTEM_PROMPT),
        ("deed_text", "Building ALPHA\nUnit PB A")]) =
      some [("system_prompt", SYSTEM_PROMPT),
        ("deed_text", "Building ALPHA\nUnit PB A")] :=
  payload_json_roundtrip exampleFs ("deed.docx") _ rfl

end DocxIngest
